import Mathlib

/-!
Verification of the connected-udp crate: a typed wrapper `ConnectedUdpSocket`
around a datagram socket handle that has been associated with a single remote
peer.

The host operating-system networking stack is an external collaborator, not
part of the crate, so it is modelled by a record of oracles (`Host`) giving
the outcome of each host primitive, together with the OS-visible state
carried on the handle (`UdpSocket`).  The crate's own code — the wrapper
struct and its methods — is embedded definition by definition from
`src/connected_udp.rs`.
-/

/-- Resolved network address: IP plus port, with the IP encoded as a numeral. -/
structure SocketAddr where
  ip : Nat
  port : Nat
deriving DecidableEq

/-- Kind of a host-level I/O failure.  `notConnected` is the kind the host
raises when the peer of an unassociated handle is queried; every other host
failure is carried abstractly by a numeric code. -/
inductive IOErrorKind where
  | notConnected : IOErrorKind
  | other : Nat → IOErrorKind
deriving DecidableEq

/-- Host-level I/O failure value, identified by its kind. -/
structure IOError where
  kind : IOErrorKind
deriving DecidableEq

/-- Datagram socket handle together with the OS-level state behind it: the
local address it is bound to and the peer address the OS has it associated
with, if any.  This models `std::net::UdpSocket`. -/
structure UdpSocket where
  boundLocal : SocketAddr
  osPeer : Option SocketAddr
deriving DecidableEq

/-- Oracles describing the behaviour of the host stack for each primitive the
crate consumes.  `connectResult` returns, on success, the address the OS
actually records as the handle's association: a real stack may normalize the
supplied address (wildcard rewriting, scope resolution), so the recorded
address is not forced to equal the supplied one.  `localAddrResult` is the
outcome of a live query of the handle's bound address.  `sendResult` is the
number of bytes the stack accepts for a no-destination send.  `recvResult`
is the datagram delivered for a receive with the given buffer capacity. -/
structure Host where
  connectResult : UdpSocket → SocketAddr → Except IOError SocketAddr
  localAddrResult : UdpSocket → Except IOError SocketAddr
  sendResult : UdpSocket → List Nat → Except IOError Nat
  recvResult : UdpSocket → Nat → Except IOError (List Nat)

namespace UdpSocket

/-- Host primitive `UdpSocket::connect`: associate the handle with `addr`.
On success the OS records the (possibly normalized) address returned by the
stack as the handle's peer. -/
def connect (h : Host) (s : UdpSocket) (addr : SocketAddr) : Except IOError UdpSocket :=
  match h.connectResult s addr with
  | Except.error e => Except.error e
  | Except.ok recorded => Except.ok { s with osPeer := some recorded }

/-- Host primitive `UdpSocket::peer_addr`: query the OS for the handle's
current peer; fails with the not-connected kind when the handle has no
association. -/
def peer_addr (s : UdpSocket) : Except IOError SocketAddr :=
  match s.osPeer with
  | none => Except.error { kind := IOErrorKind.notConnected }
  | some p => Except.ok p

/-- Host primitive `UdpSocket::local_addr`: live query of the handle's bound
local address. -/
def local_addr (h : Host) (s : UdpSocket) : Except IOError SocketAddr :=
  h.localAddrResult s

/-- Host primitive `UdpSocket::send` (the no-destination-argument send).  A
UDP send changes neither the binding nor the association, so the handle
state after the call is the handle itself, returned alongside the result. -/
def send (h : Host) (s : UdpSocket) (buf : List Nat) :
    Except IOError Nat × UdpSocket :=
  (h.sendResult s buf, s)

/-- Host primitive `UdpSocket::recv` (the no-source receive).  Like `send`,
it leaves the binding and the association untouched. -/
def recv (h : Host) (s : UdpSocket) (cap : Nat) :
    Except IOError (List Nat) × UdpSocket :=
  (h.recvResult s cap, s)

end UdpSocket

/-- The wrapper struct from `src/connected_udp.rs`: the owned handle plus the
stored peer address. -/
structure ConnectedUdpSocket where
  socket : UdpSocket
  peer : SocketAddr
deriving DecidableEq

namespace ConnectedUdpSocket

/-- Embeds `ConnectedUdpSocket::connect`:
`socket.connect(peer)?; Ok(Self { socket, peer })` — the handle is
associated via the host primitive and the caller-supplied `peer` is stored
verbatim. -/
def connect (h : Host) (socket : UdpSocket) (peer : SocketAddr) :
    Except IOError ConnectedUdpSocket :=
  match UdpSocket.connect h socket peer with
  | Except.error e => Except.error e
  | Except.ok socket2 => Except.ok { socket := socket2, peer := peer }

/-- Embeds `ConnectedUdpSocket::local_addr`: `self.socket.local_addr()`. -/
def local_addr (h : Host) (c : ConnectedUdpSocket) : Except IOError SocketAddr :=
  UdpSocket.local_addr h c.socket

/-- Embeds `ConnectedUdpSocket::peer_addr`: `self.peer`. -/
def peer_addr (c : ConnectedUdpSocket) : SocketAddr :=
  c.peer

/-- Embeds `ConnectedUdpSocket::send`: `self.socket.send(buf)`.  The method
takes the receiver by shared reference, so the wrapper state after the call
is returned alongside the result. -/
def send (h : Host) (c : ConnectedUdpSocket) (buf : List Nat) :
    Except IOError Nat × ConnectedUdpSocket :=
  match UdpSocket.send h c.socket buf with
  | (r, s2) => (r, { socket := s2, peer := c.peer })

/-- Embeds `ConnectedUdpSocket::recv`: `self.socket.recv(buf)`. -/
def recv (h : Host) (c : ConnectedUdpSocket) (cap : Nat) :
    Except IOError (List Nat) × ConnectedUdpSocket :=
  match UdpSocket.recv h c.socket cap with
  | (r, s2) => (r, { socket := s2, peer := c.peer })

/-- Embeds `impl TryFrom<UdpSocket> for ConnectedUdpSocket`:
`let peer = socket.peer_addr()?; Ok(Self { socket, peer })`. -/
def try_from (socket : UdpSocket) : Except IOError ConnectedUdpSocket :=
  match UdpSocket.peer_addr socket with
  | Except.error e => Except.error e
  | Except.ok peer => Except.ok { socket := socket, peer := peer }

/-- Embeds `impl AsRef<UdpSocket> for ConnectedUdpSocket`: `&self.socket`. -/
def as_ref (c : ConnectedUdpSocket) : UdpSocket :=
  c.socket

end ConnectedUdpSocket

/-- The spec's data-model invariant: the stored `peer` equals the OS-level
association of the wrapped handle. -/
def peerInvariant (c : ConnectedUdpSocket) : Prop :=
  c.socket.osPeer = some c.peer

instance (c : ConnectedUdpSocket) : Decidable (peerInvariant c) := by
  unfold peerInvariant; infer_instance

/-- Sample peer address supplied by a caller (a wildcard-style address). -/
def addrA : SocketAddr := { ip := 0, port := 9000 }

/-- Sample peer address as recorded by a normalizing stack (127.0.0.1:9000). -/
def addrB : SocketAddr := { ip := 2130706433, port := 9000 }

/-- Sample local bound address (127.0.0.1:5000). -/
def addrL : SocketAddr := { ip := 2130706433, port := 5000 }

/-- A freshly bound handle with no OS-level association. -/
def sock0 : UdpSocket := { boundLocal := addrL, osPeer := none }

/-- A handle already associated (out of band) with `addrB`. -/
def sockAssoc : UdpSocket := { boundLocal := addrL, osPeer := some addrB }

/-- A host on which every primitive succeeds and association records the
supplied address verbatim. -/
def okHost : Host :=
  { connectResult := fun _ a => Except.ok a
    localAddrResult := fun s => Except.ok s.boundLocal
    sendResult := fun _ buf => Except.ok buf.length
    recvResult := fun _ _ => Except.ok [] }

/-- A host whose association step normalizes the supplied address, as a real
stack does when asked to associate with a wildcard address: whatever is
supplied, the OS records `addrB`. -/
def normHost : Host :=
  { okHost with connectResult := fun _ _ => Except.ok addrB }

/-- A host on which every primitive fails, each with a distinct error code. -/
def failHost : Host :=
  { connectResult := fun _ _ => Except.error { kind := IOErrorKind.other 13 }
    localAddrResult := fun _ => Except.error { kind := IOErrorKind.other 22 }
    sendResult := fun _ _ => Except.error { kind := IOErrorKind.other 101 }
    recvResult := fun _ _ => Except.error { kind := IOErrorKind.other 102 } }

/-- A sample wrapper in the associated state, used by witnesses. -/
def wSock : ConnectedUdpSocket := { socket := sockAssoc, peer := addrB }

/-- C2: for every host, handle and peer address on which the associating
constructor `ConnectedUdpSocket.connect` succeeds, `peer_addr` on the
resulting wrapper returns exactly the peer address that was supplied. -/
theorem c2_connect_stores_supplied_peer (h : Host) (s : UdpSocket) (a : SocketAddr)
    (c : ConnectedUdpSocket)
    (hc : ConnectedUdpSocket.connect h s a = Except.ok c) :
    c.peer_addr = a := by
  unfold ConnectedUdpSocket.connect UdpSocket.connect at hc
  cases hr : h.connectResult s a with
  | error e => rw [hr] at hc; cases hc
  | ok b => rw [hr] at hc; cases hc; rfl

/-- Closed instance of `c2_connect_stores_supplied_peer`: connecting `sock0`
to `addrA` under `okHost` succeeds and the wrapper reports `addrA`. -/
theorem c2_witness :
    ({ socket := { boundLocal := addrL, osPeer := some addrA }, peer := addrA } :
      ConnectedUdpSocket).peer_addr = addrA :=
  c2_connect_stores_supplied_peer okHost sock0 addrA _ rfl

/-- C3: `try_from` on a handle with no OS-level association fails, the error
carries the distinct not-connected kind, and no wrapper value is produced. -/
theorem c3_try_from_not_connected (s : UdpSocket) (hnone : s.osPeer = none) :
    ConnectedUdpSocket.try_from s =
      Except.error { kind := IOErrorKind.notConnected } := by
  unfold ConnectedUdpSocket.try_from UdpSocket.peer_addr
  rw [hnone]

/-- Closed instance of `c3_try_from_not_connected` at the freshly bound,
never-associated handle `sock0`. -/
theorem c3_witness :
    ConnectedUdpSocket.try_from sock0 =
      Except.error { kind := IOErrorKind.notConnected } :=
  c3_try_from_not_connected sock0 rfl

/-- C4: a successful `try_from` yields a wrapper holding the very handle it
was given, whose `peer_addr` equals the peer the host stack reports for that
handle. -/
theorem c4_try_from_reports_host_peer (s : UdpSocket) (c : ConnectedUdpSocket)
    (hc : ConnectedUdpSocket.try_from s = Except.ok c) :
    UdpSocket.peer_addr s = Except.ok c.peer_addr ∧ c.socket = s := by
  unfold ConnectedUdpSocket.try_from at hc
  cases hp : UdpSocket.peer_addr s with
  | error e => rw [hp] at hc; cases hc
  | ok p => rw [hp] at hc; cases hc; exact ⟨rfl, rfl⟩

/-- Closed instance of `c4_try_from_reports_host_peer`: converting the
out-of-band associated handle `sockAssoc` yields a wrapper reporting its
true host-level peer `addrB`. -/
theorem c4_witness :
    UdpSocket.peer_addr sockAssoc = Except.ok (ConnectedUdpSocket.peer_addr wSock) ∧
    ConnectedUdpSocket.socket wSock = sockAssoc :=
  c4_try_from_reports_host_peer sockAssoc wSock rfl

/-- C5: `peer_addr` returns the stored `peer` field directly; it consults no
host oracle (the function does not even take a `Host`) and is total on
`ConnectedUdpSocket` — its result type `SocketAddr` carries no error case. -/
theorem c5_peer_addr_pure_accessor (c : ConnectedUdpSocket) :
    c.peer_addr = c.peer :=
  rfl

/-- Closed instance of `c5_peer_addr_pure_accessor` at the sample wrapper. -/
theorem c5_witness : ConnectedUdpSocket.peer_addr wSock = ConnectedUdpSocket.peer wSock :=
  c5_peer_addr_pure_accessor wSock

/-- C1 as stated is false on the code: under a host whose association step
normalizes the supplied address (`normHost` records `addrB` when asked to
associate with the wildcard-style `addrA`, as a real stack does), `connect`
succeeds and produces a wrapper whose stored peer is the supplied `addrA`
while the handle's OS-level association is `addrB`, and the two differ. -/
theorem c1_counterexample :
    ConnectedUdpSocket.connect normHost sock0 addrA =
      Except.ok { socket := { boundLocal := addrL, osPeer := some addrB },
                  peer := addrA } ∧
    addrA ≠ addrB :=
  ⟨rfl, by decide⟩

/-- C1 amended: for every wrapper and host, no exposed operation disturbs
the stored peer or the handle's association — `send` and `recv` return the
wrapper with both fields unchanged (so they preserve the invariant), while
`peer_addr` and `as_ref` are pure reads of the stored fields; and the
stored-peer/OS-association invariant holds at construction whenever the
wrapper came from `try_from` (which reads the peer back from the OS), or
from `connect` on a host whose association step records exactly the
supplied address. -/
theorem c1_amended_peer_invariant (h : Host) (s : UdpSocket) (a : SocketAddr)
    (c : ConnectedUdpSocket) :
    ((ConnectedUdpSocket.try_from s = Except.ok c ∨
        (ConnectedUdpSocket.connect h s a = Except.ok c ∧
          ∀ b, h.connectResult s a = Except.ok b → b = a)) →
      peerInvariant c) ∧
    ∀ buf cap, (c.send h buf).2 = c ∧ (c.recv h cap).2 = c ∧
      (peerInvariant (c.send h buf).2 ↔ peerInvariant c) ∧
      (peerInvariant (c.recv h cap).2 ↔ peerInvariant c) ∧
      c.peer_addr = c.peer ∧ c.as_ref = c.socket := by
  have hsend : ∀ buf, (c.send h buf).2 = c := by
    intro buf
    show ({ socket := c.socket, peer := c.peer } : ConnectedUdpSocket) = c
    cases c; rfl
  have hrecv : ∀ cap, (c.recv h cap).2 = c := by
    intro cap
    show ({ socket := c.socket, peer := c.peer } : ConnectedUdpSocket) = c
    cases c; rfl
  constructor
  · rintro (hc | ⟨hc, hexact⟩)
    · unfold ConnectedUdpSocket.try_from UdpSocket.peer_addr at hc
      cases hp : s.osPeer with
      | none => rw [hp] at hc; cases hc
      | some p =>
          rw [hp] at hc; cases hc
          unfold peerInvariant
          simp [hp]
    · unfold ConnectedUdpSocket.connect UdpSocket.connect at hc
      cases hr : h.connectResult s a with
      | error e => rw [hr] at hc; cases hc
      | ok b =>
          rw [hr] at hc; cases hc
          have hb : b = a := hexact b hr
          unfold peerInvariant
          simp [hb]
  · intro buf cap
    exact ⟨hsend buf, hrecv cap, by rw [hsend buf], by rw [hrecv cap], rfl, rfl⟩

/-- Closed instance of `c1_amended_peer_invariant`: the wrapper obtained by
converting the associated handle `sockAssoc` satisfies the invariant, and a
`send` of three bytes followed by a `recv` leaves it intact. -/
theorem c1_witness :
    peerInvariant wSock ∧
    (ConnectedUdpSocket.send okHost wSock [1, 2, 3]).2 = wSock ∧
    (ConnectedUdpSocket.recv okHost wSock 32).2 = wSock := by
  have h := c1_amended_peer_invariant okHost sockAssoc addrB wSock
  exact ⟨h.1 (Or.inl rfl), (h.2 [1, 2, 3] 32).1, (h.2 [1, 2, 3] 32).2.1⟩

/-- C6: the wrapper's `local_addr` coincides with querying the same
underlying handle directly, for every host behaviour; it fails exactly when
the host query fails, with the same error; and the result is determined by
the host consulted at call time (`h2` here), not by anything captured at
construction — the query is live, not cached. -/
theorem c6_local_addr_live_query (h h2 : Host) (c : ConnectedUdpSocket) :
    c.local_addr h = UdpSocket.local_addr h c.socket ∧
    c.local_addr h = h.localAddrResult c.socket ∧
    (∀ e, c.local_addr h = Except.error e ↔
      h.localAddrResult c.socket = Except.error e) ∧
    c.local_addr h2 = h2.localAddrResult c.socket :=
  ⟨rfl, rfl, fun _ => Iff.rfl, rfl⟩

/-- Closed instance of `c6_local_addr_live_query`: on the sample wrapper the
live query under `okHost` returns the bound address, and under `failHost`
the same wrapper surfaces the host failure — the result tracks the host
consulted at call time. -/
theorem c6_witness :
    ConnectedUdpSocket.local_addr okHost wSock = Except.ok addrL ∧
    ConnectedUdpSocket.local_addr failHost wSock =
      Except.error { kind := IOErrorKind.other 22 } :=
  ⟨(c6_local_addr_live_query okHost failHost wSock).1.trans rfl,
   (c6_local_addr_live_query okHost failHost wSock).2.2.2.trans rfl⟩

/-- C7: every host-level outcome of `send`, `recv` and the local-address
query is handed back verbatim: each wrapper call equals one application of
the corresponding host primitive to the wrapped handle (so no retry, no
second host call, no translation), and in particular a host failure `e` is
returned as exactly `e`. -/
theorem c7_errors_surface_verbatim (h : Host) (c : ConnectedUdpSocket)
    (buf : List Nat) (cap : Nat) :
    (c.send h buf).1 = h.sendResult c.socket buf ∧
    (c.recv h cap).1 = h.recvResult c.socket cap ∧
    c.local_addr h = h.localAddrResult c.socket ∧
    (∀ e, h.sendResult c.socket buf = Except.error e →
      (c.send h buf).1 = Except.error e) ∧
    (∀ e, h.recvResult c.socket cap = Except.error e →
      (c.recv h cap).1 = Except.error e) ∧
    (∀ e, h.localAddrResult c.socket = Except.error e →
      c.local_addr h = Except.error e) :=
  ⟨rfl, rfl, rfl, fun _ he => he, fun _ he => he, fun _ he => he⟩

/-- Closed instance of `c7_errors_surface_verbatim`: under `failHost` the
sample wrapper returns each primitive's distinct failure code unchanged. -/
theorem c7_witness :
    (ConnectedUdpSocket.send failHost wSock [1, 2, 3]).1 =
      Except.error { kind := IOErrorKind.other 101 } ∧
    (ConnectedUdpSocket.recv failHost wSock 32).1 =
      Except.error { kind := IOErrorKind.other 102 } ∧
    ConnectedUdpSocket.local_addr failHost wSock =
      Except.error { kind := IOErrorKind.other 22 } :=
  ⟨(c7_errors_surface_verbatim failHost wSock [1, 2, 3] 32).2.2.2.1 _ rfl,
   (c7_errors_surface_verbatim failHost wSock [1, 2, 3] 32).2.2.2.2.1 _ rfl,
   (c7_errors_surface_verbatim failHost wSock [1, 2, 3] 32).2.2.2.2.2 _ rfl⟩

/-- C8: `send` transmits via the host's no-destination send primitive applied
to the wrapped handle (the embedding of `UdpSocket::send`, which takes no
peer argument), and on success it returns the byte count the host stack
accepted; whenever the host respects the datagram bound (accepted count at
most the buffer length), that count may be less than but never exceeds the
input length. -/
theorem c8_send_uses_no_destination_primitive (h : Host) (c : ConnectedUdpSocket)
    (buf : List Nat)
    (hbound : ∀ s b n, h.sendResult s b = Except.ok n → n ≤ b.length) :
    (c.send h buf).1 = (UdpSocket.send h c.socket buf).1 ∧
    (c.send h buf).1 = h.sendResult c.socket buf ∧
    ∀ n, (c.send h buf).1 = Except.ok n → n ≤ buf.length :=
  ⟨rfl, rfl, fun n hn => hbound c.socket buf n hn⟩

/-- Closed instance of `c8_send_uses_no_destination_primitive`: sending three
bytes on the sample wrapper under `okHost` returns the host-accepted count,
which is at most the input length. -/
theorem c8_witness :
    (ConnectedUdpSocket.send okHost wSock [1, 2, 3]).1 = Except.ok 3 ∧
    (3 : Nat) ≤ [1, 2, 3].length :=
  ⟨rfl,
   (c8_send_uses_no_destination_primitive okHost wSock [1, 2, 3]
     (fun _ b _ hn => (Except.ok.inj hn) ▸ Nat.le_refl b.length)).2.2 3 rfl⟩

/-- C9: the raw-handle accessor returns exactly the stored underlying handle,
and the wrapper is nothing beyond that handle and the stored peer — the
borrow exposes the very `socket` field, operations through the borrow hit
the same handle as operations through the wrapper, and no use of the pure
accessor can replace the handle or alter the wrapper's fields. -/
theorem c9_as_ref_is_exact_handle (c : ConnectedUdpSocket) (h : Host)
    (buf : List Nat) :
    c.as_ref = c.socket ∧
    ({ socket := c.as_ref, peer := c.peer_addr } : ConnectedUdpSocket) = c ∧
    UdpSocket.send h c.as_ref buf = UdpSocket.send h c.socket buf ∧
    UdpSocket.local_addr h c.as_ref = c.local_addr h := by
  refine ⟨rfl, ?_, rfl, rfl⟩
  cases c; rfl

/-- Closed instance of `c9_as_ref_is_exact_handle` at the sample wrapper. -/
theorem c9_witness :
    ConnectedUdpSocket.as_ref wSock = sockAssoc ∧
    UdpSocket.send okHost (ConnectedUdpSocket.as_ref wSock) [1, 2, 3] =
      UdpSocket.send okHost sockAssoc [1, 2, 3] :=
  ⟨(c9_as_ref_is_exact_handle wSock okHost [1, 2, 3]).1.trans rfl,
   (c9_as_ref_is_exact_handle wSock okHost [1, 2, 3]).2.2.1⟩

/-- C10: a successful `connect` stores the caller-supplied address verbatim
as the `peer` field without reading the association back from the host: the
wrapper's `peer_addr` returns the supplied `a` exactly, while the handle's
OS-level association is whatever address `b` the host recorded — even when
the host normalized and `b` differs from `a` (see `c10_witness`). -/
theorem c10_supplied_peer_stored_verbatim (h : Host) (s : UdpSocket)
    (a b : SocketAddr) (c : ConnectedUdpSocket)
    (hrec : h.connectResult s a = Except.ok b)
    (hc : ConnectedUdpSocket.connect h s a = Except.ok c) :
    c.peer_addr = a ∧ c.socket.osPeer = some b := by
  unfold ConnectedUdpSocket.connect UdpSocket.connect at hc
  rw [hrec] at hc
  cases hc
  exact ⟨rfl, rfl⟩

/-- Closed instance of `c10_supplied_peer_stored_verbatim`: under the
normalizing `normHost`, connecting to `addrA` yields a wrapper whose
`peer_addr` is the supplied `addrA` even though the OS recorded the
different address `addrB`. -/
theorem c10_witness :
    ({ socket := { boundLocal := addrL, osPeer := some addrB },
       peer := addrA } : ConnectedUdpSocket).peer_addr = addrA ∧
    ({ socket := { boundLocal := addrL, osPeer := some addrB },
       peer := addrA } : ConnectedUdpSocket).socket.osPeer = some addrB ∧
    addrA ≠ addrB :=
  ⟨(c10_supplied_peer_stored_verbatim normHost sock0 addrA addrB _ rfl rfl).1,
   (c10_supplied_peer_stored_verbatim normHost sock0 addrA addrB _ rfl rfl).2,
   by decide⟩
